import Mathlib

/-!
Verification of the COVID-19 prediction Flask app (`app.py`).

The development shallowly embeds `app.py`:

* Python numbers are idealised as exact rationals.  To keep every
  definition kernel-evaluable we use `Frac`, a normalised
  numerator/denominator pair over `Int`/`Nat` (Mathlib's `Rat`
  normalisation is not kernel-reducible), normalised with a fuel-based
  Euclidean gcd.
* A Python float value is a `PyFloat`: finite rational, signed infinity
  or NaN, matching the values `float(str)` can produce.
* `pyFloat` models CPython's `float(str)` on ASCII strings
  (optional whitespace, sign, `inf`/`infinity`/`nan`, decimal literals
  with underscores between digits, exponent part).
* Exceptions are modelled with `Except String`; the Flask handler's
  `try/except` becomes an explicit `match`.
* The pre-trained classifier is an external collaborator and is kept
  abstract: any pair of functions `predict` / `predict_proba` that may
  also raise.
-/

namespace CovidApp

/-- Exact rational number, kept in lowest terms with nonnegative
denominator.  Idealises Python's binary floats as exact rationals. -/
structure Frac where
  num : Int
  den : Nat
deriving DecidableEq, Repr

/-- Euclidean gcd with explicit fuel, so that it is structurally
recursive and hence kernel-reducible.  `gcdFuel f a b = Nat.gcd a b`
whenever `f > a`. -/
def gcdFuel : Nat → Nat → Nat → Nat
  | 0, _, b => b
  | f + 1, a, b => if a = 0 then b else gcdFuel f (b % a) a

/-- Build a `Frac` in lowest terms from a numerator and a positive
denominator. -/
def mkFrac (n : Int) (d : Nat) : Frac :=
  let g := gcdFuel (n.natAbs + 1) n.natAbs d
  if g = 0 then ⟨n, d⟩ else ⟨n / (g : Int), d / g⟩

/-- The integer `n` as a `Frac`. -/
def Frac.ofInt (n : Int) : Frac := ⟨n, 1⟩

/-- Order on fractions by cross multiplication (denominators are
nonnegative by construction). -/
def Frac.le (a b : Frac) : Prop := a.num * (b.den : Int) ≤ b.num * (a.den : Int)

instance : DecidableRel Frac.le := fun a b => by
  unfold Frac.le
  infer_instance

/-- A Python float value: a finite rational, a signed infinity, or NaN. -/
inductive PyFloat where
  | fin (q : Frac)
  | inf (neg : Bool)
  | nan
deriving DecidableEq, Repr

/-- The 37 feature names of `app.py`, in the exact order of the
`FEATURES` list ("Feature order MUST match the order used during
training"). -/
def FEATURES : List String := [
  "Sex",
  "Birth Year",
  "Chest pain",
  "Chills or sweats",
  "Confused or disoriented",
  "Cough",
  "Diarrhea",
  "Difficulty breathing or Dyspnea",
  "Fatigue or general weakness",
  "Fever",
  "Fluid in lung cavity in auscultation",
  "Fluid in cavity through X-Ray",
  "Headache",
  "Joint pain or arthritis",
  "Thorax (sore throat)",
  "Muscle pain",
  "Nausea",
  "Other clinical symptoms",
  "Rapid breathing",
  "Runny nose",
  "Maculopapular rash",
  "Sore throat or pharyngitis",
  "Bleeding or bruising",
  "Vomiting",
  "Abnormal lung X-Ray findings",
  "Conjunctivitis",
  "Acute respiratory distress syndrome",
  "Pneumonia (clinical or radiologic)",
  "Loss of Taste",
  "Loss of Smell",
  "Cough with sputum",
  "Cough with heamoptysis",
  "Enlarged lymph nodes",
  "Wheezing",
  "Skin ulcers",
  "Inability to walk",
  "Indrawing of chest wall",
  "Other complications"
]

/-- Python `str.strip()` (ASCII whitespace model): drop whitespace from
both ends. -/
def pyStrip (s : String) : String :=
  ⟨((s.data.dropWhile Char.isWhitespace).reverse.dropWhile Char.isWhitespace).reverse⟩

/-- Python `str.lower()` (ASCII model): lower-case every character. -/
def pyLower (s : String) : String := ⟨s.data.map Char.toLower⟩

/-- `10 ^ k`. -/
def pow10 (k : Nat) : Nat := 10 ^ k

/-- Scan a maximal run of decimal digits, allowing a single underscore
between two digits (CPython numeric-literal rule).  Returns the
accumulated value, the number of digits read, and the unread rest.
A malformed underscore (not between two digits) is left in the rest, so
the overall parse fails later. -/
def digitRunGo (acc n : Nat) : List Char → Nat × Nat × List Char
  | [] => (acc, n, [])
  | [c] =>
      if c.isDigit then (10 * acc + (c.toNat - 48), n + 1, [])
      else (acc, n, [c])
  | c :: c2 :: cs =>
      if c.isDigit then digitRunGo (10 * acc + (c.toNat - 48)) (n + 1) (c2 :: cs)
      else if c = Char.ofNat 95 && c2.isDigit then
        digitRunGo (10 * acc + (c2.toNat - 48)) (n + 1) cs
      else (acc, n, c :: c2 :: cs)

/-- A digit run must start with a digit (an underscore may not lead). -/
def digitRun (cs : List Char) : Option (Nat × Nat × List Char) :=
  match cs with
  | c :: _ => if c.isDigit then some (digitRunGo 0 0 cs) else none
  | [] => none

/-- Parse the unsigned mantissa of a Python float literal:
`digits [. digits]` or `. digits`, returning numerator, count of
fractional digits, and the rest (the value is `numerator / 10 ^ count`). -/
def parseUnsigned (cs : List Char) : Option (Nat × Nat × List Char) :=
  match digitRun cs with
  | some (ip, _, rest) =>
    match rest with
    | c :: rest2 =>
      if c = Char.ofNat 46 then
        match digitRun rest2 with
        | some (fp, nf, rest3) => some (ip * pow10 nf + fp, nf, rest3)
        | none => some (ip, 0, rest2)
      else some (ip, 0, c :: rest2)
    | [] => some (ip, 0, [])
  | none =>
    match cs with
    | c :: rest2 =>
      if c = Char.ofNat 46 then
        match digitRun rest2 with
        | some (fp, nf, rest3) => some (fp, nf, rest3)
        | none => none
      else none
    | [] => none

/-- Apply a decimal exponent to a finite value. -/
def applyExp (m : Frac) (eneg : Bool) (ev : Nat) : Frac :=
  if eneg then mkFrac m.num (m.den * pow10 ev)
  else mkFrac (m.num * (pow10 ev : Int)) m.den

/-- Core of CPython `float(str)` after whitespace stripping: optional
sign, then `inf`/`infinity`/`nan` (case-insensitive) or a decimal
literal with optional exponent.  `none` models `ValueError`. -/
def pyFloatCore (cs0 : List Char) : Option PyFloat :=
  let signed : Bool × List Char :=
    match cs0 with
    | c :: r =>
        if c = Char.ofNat 43 then (false, r)
        else if c = Char.ofNat 45 then (true, r)
        else (false, cs0)
    | [] => (false, cs0)
  let neg := signed.1
  let cs := signed.2
  let low := cs.map Char.toLower
  if low = "inf".data ∨ low = "infinity".data then some (.inf neg)
  else if low = "nan".data then some .nan
  else
    match parseUnsigned cs with
    | none => none
    | some (mant, nf, rest) =>
      let base : Frac := mkFrac (if neg then -(mant : Int) else (mant : Int)) (pow10 nf)
      match rest with
      | [] => some (.fin base)
      | c :: r1 =>
        if c = Char.ofNat 101 ∨ c = Char.ofNat 69 then
          let esigned : Bool × List Char :=
            match r1 with
            | c2 :: r2 =>
                if c2 = Char.ofNat 43 then (false, r2)
                else if c2 = Char.ofNat 45 then (true, r2)
                else (false, r1)
            | [] => (false, r1)
          match digitRun esigned.2 with
          | some (ev, _, []) => some (.fin (applyExp base esigned.1 ev))
          | _ => none
        else none

/-- CPython `float(str)`: strip whitespace, then parse.  `none` models a
raised `ValueError`. -/
def pyFloat (s : String) : Option PyFloat :=
  pyFloatCore (pyStrip s).data

/-- One slot of `build_feature_vector_from_form` (`app.py` lines 71-88):
`raw = form.get(feat, None)`; `None` or `""` defaults to `0`; otherwise
try `float(raw)`; on `ValueError` apply the lexical fallback on
`str(raw).strip().lower()`. -/
def formValue : Option String → PyFloat
  | none => .fin (Frac.ofInt 0)
  | some raw =>
    if raw = "" then .fin (Frac.ofInt 0)
    else
      match pyFloat raw with
      | some v => v
      | none =>
        let s := pyLower (pyStrip raw)
        if s = "male" ∨ s = "m" ∨ s = "1" then .fin (Frac.ofInt 1)
        else if s = "female" ∨ s = "f" ∨ s = "0" then .fin (Frac.ofInt 0)
        else if s = "yes" ∨ s = "y" ∨ s = "true" ∨ s = "1" then .fin (Frac.ofInt 1)
        else .fin (Frac.ofInt 0)

/-- `build_feature_vector_from_form` (`app.py` lines 68-89).  The form is
an association list (first binding wins, like `MultiDict.get`); the
final `np.array(..., dtype=float)` is the identity on the already-float
values, so the encoder is total. -/
def build_feature_vector_from_form (form : List (String × String)) : List PyFloat :=
  FEATURES.map (fun feat => formValue (List.lookup feat form))

/-- A JSON value as sent to the endpoint: number, boolean, string or
null. -/
inductive JsonVal where
  | num (q : Frac)
  | bool (b : Bool)
  | str (s : String)
  | null
deriving DecidableEq, Repr

/-- The `vals` list collected by the loop of
`build_feature_vector_from_json` (`app.py` lines 58-64): for each schema
slot, the supplied value as-is, else the literal `0`. -/
def json_vals (json_data : List (String × JsonVal)) : List JsonVal :=
  FEATURES.map (fun feat =>
    match List.lookup feat json_data with
    | some v => v
    | none => .num (Frac.ofInt 0))

/-- Conversion of one collected value by `np.array(vals, dtype=float)`
(`app.py` line 66): numbers and booleans convert, strings go through the
float parser, `null` and unparsable strings raise. -/
def npToFloat : JsonVal → Except String PyFloat
  | .num q => .ok (.fin q)
  | .bool b => .ok (.fin (Frac.ofInt (if b then 1 else 0)))
  | .str s =>
    match pyFloat s with
    | some v => .ok v
    | none => .error ("could not convert string to float: " ++ s)
  | .null => .error "float() argument must be a string or a real number, not NoneType"

/-- Convert a list element-wise, stopping at the first raised error
(the order in which `np.array` converts). -/
def exceptMap (f : α → Except String β) : List α → Except String (List β)
  | [] => .ok []
  | a :: as =>
    match f a with
    | .error e => .error e
    | .ok b =>
      match exceptMap f as with
      | .error e => .error e
      | .ok bs => .ok (b :: bs)

/-- `build_feature_vector_from_json` (`app.py` lines 55-66): collect the
37 values in schema order, then convert them all to float
(`np.array([vals], dtype=float)`), which can raise. -/
def build_feature_vector_from_json (json_data : List (String × JsonVal)) :
    Except String (List PyFloat) :=
  exceptMap npToFloat (json_vals json_data)

/-- Message for label 0 (`app.py` line 107). -/
def NEG_MESSAGE : String := "You have not contracted COVID-19"

/-- Message for any other label (`app.py` line 109). -/
def POS_MESSAGE : String := "You most likely have contracted COVID-19"

/-- Python `f"..{p:.2f}.."` on an exact rational: round to two decimals
with round-half-to-even and print with two decimal digits (double
rounding of the underlying IEEE value is idealised away). -/
def format2 (q : Frac) : String :=
  let neg := q.num < 0
  let a : Nat := q.num.natAbs * 100
  let fl : Nat := a / q.den
  let rem : Nat := a % q.den
  let r : Nat :=
    if 2 * rem < q.den then fl
    else if q.den < 2 * rem then fl + 1
    else if fl % 2 = 0 then fl else fl + 1
  (if neg then "-" else "") ++ Nat.repr (r / 100) ++ "." ++
    (if r % 100 < 10 then "0" ++ Nat.repr (r % 100) else Nat.repr (r % 100))

/-- The rendered prediction text
`f"{message} (Probability: {proba:.2f})"` (`app.py` lines 115, 128). -/
def renderText (message : String) (proba : Frac) : String :=
  message ++ " (Probability: " ++ format2 proba ++ ")"

/-- A response of the `/predict` handler: `jsonify` with prediction and
probability, a rendered `index.html` with a `prediction_text`, or the
`jsonify({"error": ...}), 400` pair. -/
inductive Response where
  | jsonOk (prediction : String) (probability : Frac)
  | htmlPage (prediction_text : String)
  | jsonError (error : String)
deriving DecidableEq, Repr

/-- HTTP status code of a response (Flask default 200; the error branch
returns 400 explicitly). -/
def Response.status : Response → Nat
  | .jsonOk _ _ => 200
  | .htmlPage _ => 200
  | .jsonError _ => 400

/-- The external pre-trained classifier, kept abstract: `predict`
yields the label `model.predict(X)[0]` and `predict_proba` the row
`model.predict_proba(X)[0]`; either call may raise. -/
structure Classifier where
  predict : List PyFloat → Except String Int
  predict_proba : List PyFloat → Except String (List Frac)

/-- `row[1]` with a Python `IndexError` when the row is too short
(`model.predict_proba(X)[0][1]`, `app.py` lines 103, 121). -/
def listGet1 : List Frac → Except String Frac
  | _ :: p :: _ => .ok p
  | _ => .error "index 1 is out of bounds for axis 0 with size 1"

/-- The body of a POST to `/predict`: a parsed JSON object, a malformed
JSON body, or no JSON body at all (e.g. a form post). -/
inductive Body where
  | jsonGood (j : List (String × JsonVal))
  | jsonBad
  | noJson
deriving DecidableEq, Repr

/-- `request.get_json(silent=True)`: the parsed object, or `None` both
for a malformed body and for an absent JSON body; never raises. -/
def get_json : Body → Option (List (String × JsonVal))
  | .jsonGood j => some j
  | .jsonBad => none
  | .noJson => none

/-- An incoming POST request: body, form fields, and whether the request
declared a JSON content type (`request.is_json`). -/
structure Request where
  body : Body
  form : List (String × String)
  is_json : Bool

/-- The JSON branch of `predict` (`app.py` lines 100-115): encode via the
JSON encoder, classify, and format the response by content type.
Exceptions propagate to the handler's `except`. -/
def jsonBranch (clf : Classifier) (json_data : List (String × JsonVal)) (ij : Bool) :
    Except String Response :=
  match build_feature_vector_from_json json_data with
  | .error e => .error e
  | .ok X =>
    match clf.predict X with
    | .error e => .error e
    | .ok pred =>
      match clf.predict_proba X with
      | .error e => .error e
      | .ok row =>
        match listGet1 row with
        | .error e => .error e
        | .ok proba =>
          let message := if pred = 0 then NEG_MESSAGE else POS_MESSAGE
          if ij then .ok (.jsonOk message proba)
          else .ok (.htmlPage (renderText message proba))

/-- The form branch of `predict` (`app.py` lines 117-128): encode the
form fields, classify, always render the HTML page. -/
def formFlow (clf : Classifier) (req : Request) : Except String Response :=
  match clf.predict (build_feature_vector_from_form req.form) with
  | .error e => .error e
  | .ok pred =>
    match clf.predict_proba (build_feature_vector_from_form req.form) with
    | .error e => .error e
    | .ok row =>
      match listGet1 row with
      | .error e => .error e
      | .ok proba =>
        let message := if pred = 0 then NEG_MESSAGE else POS_MESSAGE
        .ok (.htmlPage (renderText message proba))

/-- The `try` block of `predict` (`app.py` lines 99-128): take the JSON
branch when `json_data` is truthy (a nonempty dict), else the form
branch. -/
def predictCore (clf : Classifier) (req : Request) : Except String Response :=
  match get_json req.body with
  | some json_data =>
    if json_data = [] then formFlow clf req
    else jsonBranch clf json_data req.is_json
  | none => formFlow clf req

/-- The `/predict` handler (`app.py` lines 95-134), `except` clause
included: any exception becomes a 400 JSON error for JSON callers and an
in-page error text otherwise. -/
def predict (clf : Classifier) (req : Request) : Response :=
  match predictCore clf req with
  | .ok r => r
  | .error e => if req.is_json then .jsonError e else .htmlPage ("Error: " ++ e)

/-- A concrete classifier that labels everything 0 with positive-class
probability 3/4, used to instantiate theorems about the handler. -/
def clfNeg : Classifier :=
  ⟨fun _ => .ok 0, fun _ => .ok [⟨1, 4⟩, ⟨3, 4⟩]⟩

/-- A concrete classifier that labels everything 1 with positive-class
probability 1/2. -/
def clfPos : Classifier :=
  ⟨fun _ => .ok 1, fun _ => .ok [⟨1, 2⟩, ⟨1, 2⟩]⟩

/-- A concrete classifier whose calls always raise. -/
def clfRaise : Classifier :=
  ⟨fun _ => .error "boom", fun _ => .error "boom"⟩

end CovidApp

deriving instance DecidableEq for Except

namespace CovidApp

/-! ### Helper lemmas -/

/-- Only the character `1` itself lower-cases to `1`. -/
theorem toLower_eq_digit_one {c : Char} (h : c.toLower = Char.ofNat 49) :
    c = Char.ofNat 49 := by
  have hdef : c.toLower =
      if c.toNat ≥ 65 ∧ c.toNat ≤ 90 then Char.ofNat (c.toNat + 32) else c := rfl
  rw [hdef] at h
  split at h
  · exfalso
    rename_i hn
    obtain ⟨n, hEq⟩ : ∃ n, c.toNat = n := ⟨_, rfl⟩
    rw [hEq] at h hn
    obtain ⟨h1, h2⟩ := hn
    interval_cases n <;> exact absurd h (by decide)
  · exact h

/-- `exceptMap` preserves the length when it succeeds. -/
theorem exceptMap_ok_length {f : α → Except String β} :
    ∀ {l : List α} {v : List β}, exceptMap f l = .ok v → v.length = l.length := by
  intro l
  induction l with
  | nil =>
    intro v h
    simp only [exceptMap, Except.ok.injEq] at h
    subst h
    rfl
  | cons a as ih =>
    intro v h
    simp only [exceptMap] at h
    cases hfa : f a with
    | error e => rw [hfa] at h; simp at h
    | ok b =>
      rw [hfa] at h
      cases hrest : exceptMap f as with
      | error e => rw [hrest] at h; simp at h
      | ok bs =>
        rw [hrest] at h
        simp only [Except.ok.injEq] at h
        subst h
        simp [ih hrest]

/-- When `exceptMap` succeeds, each output position is the successful
conversion of the corresponding input position. -/
theorem exceptMap_ok_get {f : α → Except String β} :
    ∀ {l : List α} {v : List β}, exceptMap f l = .ok v →
      ∀ (i : Nat) (a : α), l[i]? = some a → ∃ b, f a = .ok b ∧ v[i]? = some b := by
  intro l
  induction l with
  | nil =>
    intro v h i a ha
    simp at ha
  | cons x xs ih =>
    intro v h i a ha
    simp only [exceptMap] at h
    cases hfa : f x with
    | error e => rw [hfa] at h; simp at h
    | ok b =>
      rw [hfa] at h
      cases hrest : exceptMap f xs with
      | error e => rw [hrest] at h; simp at h
      | ok bs =>
        rw [hrest] at h
        simp only [Except.ok.injEq] at h
        subst h
        cases i with
        | zero =>
          simp only [List.getElem?_cons_zero, Option.some.injEq] at ha
          subst ha
          exact ⟨b, hfa, by simp⟩
        | succ n =>
          simp only [List.getElem?_cons_succ] at ha
          obtain ⟨b2, hb2, hv2⟩ := ih hrest n a ha
          exact ⟨b2, hb2, by simpa using hv2⟩

/-- Position `i` of the form-encoded vector is `formValue` of the lookup
of the `i`-th feature name. -/
theorem form_getElem {form : List (String × String)} {i : Nat} {feat : String}
    (h : FEATURES[i]? = some feat) :
    (build_feature_vector_from_form form)[i]? =
      some (formValue (List.lookup feat form)) := by
  simp [build_feature_vector_from_form, List.getElem?_map, h]

/-- Position `i` of the collected JSON values is the lookup of the
`i`-th feature name, defaulting to `0`. -/
theorem json_vals_getElem {j : List (String × JsonVal)} {i : Nat} {feat : String}
    (h : FEATURES[i]? = some feat) :
    (json_vals j)[i]? = some (match List.lookup feat j with
      | some v => v
      | none => .num (Frac.ofInt 0)) := by
  simp only [json_vals, List.getElem?_map, h]
  rfl

/-- A parse success short-circuits the lexical fallback. -/
theorem formValue_parse {r : String} {x : PyFloat} (hx : pyFloat r = some x) :
    formValue (some r) = x := by
  by_cases hne : r = ""
  · subst hne
    rw [show pyFloat "" = none from by decide] at hx
    cases hx
  · simp only [formValue, if_neg hne, hx]

/-- On parse failure the lexical fallback chain of the code is the
two-valued table of the specification. -/
theorem formValue_fallback {r : String} (hne : r ≠ "") (hpf : pyFloat r = none) :
    formValue (some r) = .fin (Frac.ofInt
      (if pyLower (pyStrip r) = "male" ∨ pyLower (pyStrip r) = "m" ∨
          pyLower (pyStrip r) = "1" ∨ pyLower (pyStrip r) = "yes" ∨
          pyLower (pyStrip r) = "y" ∨ pyLower (pyStrip r) = "true"
        then 1 else 0)) := by
  simp only [formValue, if_neg hne, hpf]
  by_cases h1 : pyLower (pyStrip r) = "male" ∨ pyLower (pyStrip r) = "m" ∨
      pyLower (pyStrip r) = "1"
  · rw [if_pos h1]
    rcases h1 with h | h | h <;> rw [h] <;> decide
  · rw [if_neg h1]
    by_cases h2 : pyLower (pyStrip r) = "female" ∨ pyLower (pyStrip r) = "f" ∨
        pyLower (pyStrip r) = "0"
    · rw [if_pos h2]
      rcases h2 with h | h | h <;> rw [h] <;> decide
    · rw [if_neg h2]
      by_cases h3 : pyLower (pyStrip r) = "yes" ∨ pyLower (pyStrip r) = "y" ∨
          pyLower (pyStrip r) = "true" ∨ pyLower (pyStrip r) = "1"
      · rw [if_pos h3]
        rcases h3 with h | h | h | h <;> rw [h] <;> decide
      · have hbig : ¬(pyLower (pyStrip r) = "male" ∨ pyLower (pyStrip r) = "m" ∨
            pyLower (pyStrip r) = "1" ∨ pyLower (pyStrip r) = "yes" ∨
            pyLower (pyStrip r) = "y" ∨ pyLower (pyStrip r) = "true") := by
          push_neg at h1 h3
          push_neg
          exact ⟨h1.1, h1.2.1, h1.2.2, h3.1, h3.2.1, h3.2.2.1⟩
        rw [if_neg h3, if_neg hbig]

/-! ### Claims -/

/-- C1, counterexample: the claim says the encoded vector always has
exactly 37 positions, but the `FEATURES` list of `app.py` has 38
entries, so already the empty form encodes to a vector of length 38. -/
theorem C1_counterexample :
    ¬ (build_feature_vector_from_form []).length = 37 := by decide

/-- C1, amended: for every input record (JSON mapping or form mapping),
the feature vector produced by the encoder and passed to the classifier
has exactly 38 positions, one per Feature Schema slot in the fixed
schema-declared order, regardless of how many keys the caller
supplied. -/
theorem C1_feature_vector_length :
    FEATURES.length = 38 ∧
    (∀ form : List (String × String),
      (build_feature_vector_from_form form).length = 38) ∧
    (∀ (j : List (String × JsonVal)) (v : List PyFloat),
      build_feature_vector_from_json j = .ok v → v.length = 38) := by
  refine ⟨by decide, ?_, ?_⟩
  · intro form
    show (FEATURES.map _).length = 38
    rw [List.length_map]
    decide
  · intro j v h
    have h1 := exceptMap_ok_length h
    have h2 : (json_vals j).length = 38 := by
      show (FEATURES.map _).length = 38
      rw [List.length_map]
      decide
    omega

/-- C1, witness: the empty JSON object encodes successfully and the
resulting vector has 38 positions. -/
theorem C1_witness :
    (List.replicate 38 (PyFloat.fin ⟨0, 1⟩) : List PyFloat).length = 38 :=
  C1_feature_vector_length.2.2 [] _ (by decide)

/-- C2: per-slot behaviour of the form encoder: absent key or empty
string gives 0; a string that parses as a float gives the parsed value;
otherwise the case-insensitive whitespace-trimmed lexical fallback gives
1.0 on the male/yes tables and 0.0 on everything else (in particular on
the female table); and the form `Sex=Male` yields 1.0 at position 0 and
0 elsewhere. -/
theorem C2_form_encoding :
    (∀ (form : List (String × String)) (i : Nat) (feat : String),
      FEATURES[i]? = some feat →
      ((List.lookup feat form = none →
          (build_feature_vector_from_form form)[i]? = some (.fin (Frac.ofInt 0))) ∧
       (List.lookup feat form = some "" →
          (build_feature_vector_from_form form)[i]? = some (.fin (Frac.ofInt 0))) ∧
       (∀ (r : String) (x : PyFloat),
          List.lookup feat form = some r → pyFloat r = some x →
          (build_feature_vector_from_form form)[i]? = some x) ∧
       (∀ r : String,
          List.lookup feat form = some r → r ≠ "" → pyFloat r = none →
          (build_feature_vector_from_form form)[i]? = some (.fin (Frac.ofInt
            (if pyLower (pyStrip r) = "male" ∨ pyLower (pyStrip r) = "m" ∨
                pyLower (pyStrip r) = "1" ∨ pyLower (pyStrip r) = "yes" ∨
                pyLower (pyStrip r) = "y" ∨ pyLower (pyStrip r) = "true"
              then 1 else 0)))))) ∧
    build_feature_vector_from_form [("Sex", "Male")] =
      PyFloat.fin (Frac.ofInt 1) :: List.replicate 37 (PyFloat.fin (Frac.ofInt 0)) := by
  refine ⟨?_, by decide⟩
  intro form i feat h
  refine ⟨?_, ?_, ?_, ?_⟩
  · intro hl
    rw [form_getElem h, hl]
    decide
  · intro hl
    rw [form_getElem h, hl]
    decide
  · intro r x hl hx
    rw [form_getElem h, hl, formValue_parse hx]
  · intro r hl hne hpf
    rw [form_getElem h, hl, formValue_fallback hne hpf]

/-- C2, witness: the form `Cough=yes` puts 1.0 at the `Cough` position
(index 5) through the lexical fallback. -/
theorem C2_witness :
    (build_feature_vector_from_form [("Cough", "yes")])[5]? =
      some (.fin (Frac.ofInt (if pyLower (pyStrip "yes") = "male" ∨
        pyLower (pyStrip "yes") = "m" ∨ pyLower (pyStrip "yes") = "1" ∨
        pyLower (pyStrip "yes") = "yes" ∨ pyLower (pyStrip "yes") = "y" ∨
        pyLower (pyStrip "yes") = "true" then 1 else 0))) :=
  ((C2_form_encoding.1 [("Cough", "yes")] 5 "Cough" (by decide)).2.2.2
    "yes" (by decide) (by decide) (by decide))

/-- C3: per-slot behaviour of the JSON encoder: a supplied value lands
unchanged at the slot's fixed position of the collected value list (and,
for numeric values, in the final float vector); a missing key gives 0
there and 0.0 in the final vector; keys outside the Feature Schema have
no effect on the encoder's output. -/
theorem C3_json_encoding :
    (∀ (j : List (String × JsonVal)) (i : Nat) (feat : String),
      FEATURES[i]? = some feat →
      ((∀ v : JsonVal, List.lookup feat j = some v → (json_vals j)[i]? = some v) ∧
       (List.lookup feat j = none →
          (json_vals j)[i]? = some (.num (Frac.ofInt 0)) ∧
          ∀ out : List PyFloat, build_feature_vector_from_json j = .ok out →
            out[i]? = some (.fin (Frac.ofInt 0))) ∧
       (∀ q : Frac, List.lookup feat j = some (.num q) →
          ∀ out : List PyFloat, build_feature_vector_from_json j = .ok out →
            out[i]? = some (.fin q)))) ∧
    (∀ (j : List (String × JsonVal)) (k : String) (v : JsonVal),
      k ∉ FEATURES →
      json_vals ((k, v) :: j) = json_vals j ∧
      build_feature_vector_from_json ((k, v) :: j) =
        build_feature_vector_from_json j) := by
  constructor
  · intro j i feat h
    refine ⟨?_, ?_, ?_⟩
    · intro v hl
      rw [json_vals_getElem h, hl]
    · intro hl
      refine ⟨by rw [json_vals_getElem h, hl], ?_⟩
      intro out hout
      have hv : (json_vals j)[i]? = some (JsonVal.num (Frac.ofInt 0)) := by
        rw [json_vals_getElem h, hl]
      obtain ⟨b, hb, hob⟩ := exceptMap_ok_get hout i _ hv
      rw [show npToFloat (JsonVal.num (Frac.ofInt 0)) =
        .ok (.fin (Frac.ofInt 0)) from rfl] at hb
      cases hb
      exact hob
    · intro q hl out hout
      have hv : (json_vals j)[i]? = some (JsonVal.num q) := by
        rw [json_vals_getElem h, hl]
      obtain ⟨b, hb, hob⟩ := exceptMap_ok_get hout i _ hv
      rw [show npToFloat (JsonVal.num q) = .ok (.fin q) from rfl] at hb
      cases hb
      exact hob
  · intro j k v hk
    have hvals : json_vals ((k, v) :: j) = json_vals j := by
      apply List.map_congr_left
      intro feat hfeat
      have hne : ¬ (feat == k) = true := by
        simp only [beq_iff_eq]
        intro hEq
        exact hk (hEq ▸ hfeat)
      simp only [List.lookup, hne]
    exact ⟨hvals, by simp only [build_feature_vector_from_json, hvals]⟩

/-- C3, witness: a boolean supplied for `Cough` (index 5) is placed
as-is in the collected values. -/
theorem C3_witness :
    (json_vals [("Cough", JsonVal.bool true)])[5]? = some (JsonVal.bool true) :=
  (C3_json_encoding.1 [("Cough", JsonVal.bool true)] 5 "Cough" (by decide)).1
    (JsonVal.bool true) (by decide)

/-- C4: every string that reaches the form encoder's lexical fallback
failed the float parse (a parse success short-circuits it), and a parse
failure implies the trimmed lower-cased string is not `"1"`, so the
`"1"` entries of the fallback tables are unreachable; numeric strings
such as `"1"` and `"1.0"` are handled by the primary numeric parse. -/
theorem C4_numeric_primary_parse :
    (∀ (raw : String) (x : PyFloat), pyFloat raw = some x →
      formValue (some raw) = x) ∧
    (∀ raw : String, pyFloat raw = none → pyLower (pyStrip raw) ≠ "1") ∧
    pyFloat "1" = some (.fin (Frac.ofInt 1)) ∧
    pyFloat "1.0" = some (.fin (Frac.ofInt 1)) := by
  refine ⟨fun raw x hx => formValue_parse hx, ?_, by decide, by decide⟩
  intro raw h hcontra
  have hdata : (pyStrip raw).data.map Char.toLower = [Char.ofNat 49] :=
    congrArg String.data hcontra
  have hone : (pyStrip raw).data = [Char.ofNat 49] := by
    cases hd : (pyStrip raw).data with
    | nil => rw [hd] at hdata; simp at hdata
    | cons c cs =>
      rw [hd] at hdata
      simp only [List.map_cons, List.cons.injEq] at hdata
      obtain ⟨hc, hcs⟩ := hdata
      rw [List.map_eq_nil_iff] at hcs
      rw [hcs, toLower_eq_digit_one hc]
  rw [pyFloat, hone] at h
  exact absurd h (by decide)

/-- C4, witness: `"2.5"` parses and the parsed value is what the form
encoder uses. -/
theorem C4_witness : formValue (some "2.5") = .fin ⟨5, 2⟩ :=
  C4_numeric_primary_parse.1 "2.5" (.fin ⟨5, 2⟩) (by decide)

/-- C5, counterexample: the claim says the JSON encoder completes
without raising for any supplied value, but a non-numeric string makes
the encoder's own `np.array(..., dtype=float)` raise, already during
encoding. -/
theorem C5_counterexample :
    build_feature_vector_from_json [("Sex", JsonVal.str "abc")] =
      Except.error "could not convert string to float: abc" := by decide

/-- C5, amended: when a JSON mapping supplies a value that cannot be
converted to float, the failure surfaces during the encoding step (at
the encoder's final `np.array(..., dtype=float)` conversion), before the
classifier is ever invoked: the handler's response carries the encoding
error and does not depend on the classifier. -/
theorem C5_encoding_failure_location :
    ∀ (j : List (String × JsonVal)) (e : String) (clf : Classifier)
      (f : List (String × String)) (ij : Bool),
      j ≠ [] → build_feature_vector_from_json j = .error e →
      predict clf ⟨.jsonGood j, f, ij⟩ =
        (if ij then Response.jsonError e
         else Response.htmlPage ("Error: " ++ e)) := by
  intro j e clf f ij hne henc
  simp only [predict, predictCore, get_json, if_neg hne, jsonBranch, henc]

/-- C5, witness: the encoding failure on `Sex = "abc"` produces the 400
JSON error response, whatever the classifier would have answered. -/
theorem C5_witness :
    predict clfNeg ⟨.jsonGood [("Sex", JsonVal.str "abc")], [], true⟩ =
      (if true then Response.jsonError "could not convert string to float: abc"
       else Response.htmlPage ("Error: " ++ "could not convert string to float: abc")) :=
  C5_encoding_failure_location [("Sex", JsonVal.str "abc")]
    "could not convert string to float: abc" clfNeg [] true (by decide) (by decide)

/-- C6, counterexample: the claim says every successfully parsed JSON
object, including the empty one, takes the JSON branch; but `if
json_data:` is falsy on the empty dict, so an empty JSON object from a
JSON-content-type caller is answered by the form branch's rendered HTML
page instead of a JSON response. -/
theorem C6_counterexample :
    predict clfNeg ⟨.jsonGood [], [], true⟩ =
      .htmlPage "You have not contracted COVID-19 (Probability: 0.75)" ∧
    predictCore clfNeg ⟨.jsonGood [], [], true⟩ =
      formFlow clfNeg ⟨.jsonGood [], [], true⟩ :=
  ⟨by decide, rfl⟩

/-- C6, amended: for every POST whose body parses as a nonempty JSON
object, the handler takes the JSON branch (its outcome is the JSON
branch's and does not depend on the form fields); an empty JSON object
is falsy and falls through to the form-handling branch. -/
theorem C6_json_branch_dispatch :
    ∀ (clf : Classifier) (j : List (String × JsonVal))
      (f f2 : List (String × String)) (ij : Bool),
      j ≠ [] →
      predictCore clf ⟨.jsonGood j, f, ij⟩ = jsonBranch clf j ij ∧
      predict clf ⟨.jsonGood j, f, ij⟩ = predict clf ⟨.jsonGood j, f2, ij⟩ ∧
      predictCore clf ⟨.jsonGood [], f, ij⟩ = formFlow clf ⟨.jsonGood [], f, ij⟩ := by
  intro clf j f f2 ij hne
  have h1 : ∀ g : List (String × String),
      predictCore clf ⟨.jsonGood j, g, ij⟩ = jsonBranch clf j ij := by
    intro g
    simp only [predictCore, get_json, if_neg hne]
  refine ⟨h1 f, ?_, rfl⟩
  simp only [predict, h1 f, h1 f2]

/-- C6, witness: a nonempty JSON object is handled by the JSON branch. -/
theorem C6_witness :
    predictCore clfPos ⟨.jsonGood [("Fever", JsonVal.num ⟨1, 1⟩)], [], true⟩ =
      jsonBranch clfPos [("Fever", JsonVal.num ⟨1, 1⟩)] true :=
  (C6_json_branch_dispatch clfPos [("Fever", JsonVal.num ⟨1, 1⟩)]
    [] [("Cough", "1")] true (by decide)).1

/-- C7: a malformed JSON body makes `get_json(silent=True)` return
`None` without raising, so the handler proceeds exactly as with no JSON
body at all: the form-handling branch. -/
theorem C7_malformed_json_fallthrough :
    ∀ (clf : Classifier) (f : List (String × String)) (ij : Bool),
      get_json Body.jsonBad = none ∧
      predictCore clf ⟨.jsonBad, f, ij⟩ = formFlow clf ⟨.jsonBad, f, ij⟩ ∧
      predict clf ⟨.jsonBad, f, ij⟩ = predict clf ⟨.noJson, f, ij⟩ :=
  fun _ _ _ => ⟨rfl, rfl, rfl⟩

/-- C8: whenever a request reaches classification, label 0 produces the
negative-outcome message and label 1 the positive-outcome message, and
the probability in the response is exactly the classifier's
positive-class probability `predict_proba(X)[0][1]` (which lies in
[0, 1] by the external classifier's distribution contract, taken here as
a hypothesis). -/
theorem C8_response_formatting :
    ∀ (clf : Classifier) (j : List (String × JsonVal)) (f : List (String × String))
      (ij : Bool) (X : List PyFloat) (L : Int) (row : List Frac) (p : Frac),
      listGet1 row = .ok p →
      Frac.le (Frac.ofInt 0) p → Frac.le p (Frac.ofInt 1) →
      ((j ≠ [] → build_feature_vector_from_json j = .ok X →
          clf.predict X = .ok L → clf.predict_proba X = .ok row →
          predict clf ⟨.jsonGood j, f, ij⟩ =
            (if ij then Response.jsonOk (if L = 0 then NEG_MESSAGE else POS_MESSAGE) p
             else Response.htmlPage
               (renderText (if L = 0 then NEG_MESSAGE else POS_MESSAGE) p))) ∧
       (clf.predict (build_feature_vector_from_form f) = .ok L →
          clf.predict_proba (build_feature_vector_from_form f) = .ok row →
          predict clf ⟨.noJson, f, ij⟩ =
            Response.htmlPage
              (renderText (if L = 0 then NEG_MESSAGE else POS_MESSAGE) p)) ∧
       (L = 0 → (if L = 0 then NEG_MESSAGE else POS_MESSAGE) = NEG_MESSAGE) ∧
       (L = 1 → (if L = 0 then NEG_MESSAGE else POS_MESSAGE) = POS_MESSAGE) ∧
       Frac.le (Frac.ofInt 0) p ∧ Frac.le p (Frac.ofInt 1)) := by
  intro clf j f ij X L row p hrow h0 h1
  refine ⟨?_, ?_, ?_, ?_, h0, h1⟩
  · intro hne henc hpred hproba
    have hcore : predictCore clf ⟨.jsonGood j, f, ij⟩ = jsonBranch clf j ij := by
      simp only [predictCore, get_json, if_neg hne]
    have hjb : jsonBranch clf j ij =
        .ok (if ij then Response.jsonOk (if L = 0 then NEG_MESSAGE else POS_MESSAGE) p
             else Response.htmlPage
               (renderText (if L = 0 then NEG_MESSAGE else POS_MESSAGE) p)) := by
      simp only [jsonBranch, henc, hpred, hproba, hrow]
      cases ij <;> simp
    simp only [predict, hcore, hjb]
  · intro hpred hproba
    simp only [predict, predictCore, get_json, formFlow, hpred, hproba, hrow]
  · intro h
    rw [if_pos h]
  · intro h
    subst h
    decide

/-- C8, witness: label 1 with probability 1/2 on a JSON request yields
the positive message and echoes 1/2. -/
theorem C8_witness :
    predict clfPos ⟨.jsonGood [("Fever", JsonVal.num ⟨1, 1⟩)], [], true⟩ =
      (if true then
        Response.jsonOk (if (1 : Int) = 0 then NEG_MESSAGE else POS_MESSAGE) ⟨1, 2⟩
       else Response.htmlPage
         (renderText (if (1 : Int) = 0 then NEG_MESSAGE else POS_MESSAGE) ⟨1, 2⟩)) :=
  (C8_response_formatting clfPos [("Fever", JsonVal.num ⟨1, 1⟩)] [] true
      (List.replicate 9 (PyFloat.fin ⟨0, 1⟩) ++
        PyFloat.fin ⟨1, 1⟩ :: List.replicate 28 (PyFloat.fin ⟨0, 1⟩))
      1 [⟨1, 2⟩, ⟨1, 2⟩] ⟨1, 2⟩ (by decide) (by decide) (by decide)).1
    (by decide) (by decide) (by decide) (by decide)

/-- C9: every exception raised during encoding or classification is
caught by the handler: a JSON caller gets a 400 response whose error
field is the exception text, any other caller gets the rendered page
with the error text embedded; the handler itself is a total function. -/
theorem C9_error_handling :
    ∀ (clf : Classifier) (req : Request) (e : String),
      predictCore clf req = .error e →
      (predict clf req = (if req.is_json then Response.jsonError e
                          else Response.htmlPage ("Error: " ++ e)) ∧
       (req.is_json = true →
          predict clf req = .jsonError e ∧ (predict clf req).status = 400) ∧
       (req.is_json = false →
          predict clf req = .htmlPage ("Error: " ++ e) ∧
          (predict clf req).status = 200)) := by
  intro clf req e h
  have hp : predict clf req = (if req.is_json then Response.jsonError e
      else Response.htmlPage ("Error: " ++ e)) := by
    simp only [predict, h]
  refine ⟨hp, ?_, ?_⟩
  · intro hij
    rw [hp, if_pos hij]
    exact ⟨rfl, rfl⟩
  · intro hij
    rw [hp, if_neg (by simp [hij])]
    exact ⟨rfl, rfl⟩

/-- C9, witness: a raising classifier on a JSON-content-type request
yields the 400 JSON error response. -/
theorem C9_witness :
    predict clfRaise ⟨.noJson, [], true⟩ = .jsonError "boom" ∧
    (predict clfRaise ⟨.noJson, [], true⟩).status = 400 :=
  (C9_error_handling clfRaise ⟨.noJson, [], true⟩ "boom" (by decide)).2.1 rfl

/-- C10: the form encoder is total: it produces a full-length vector for
every string-to-string mapping (the `ValueError` of a failed parse is
always caught), and every position decided by the lexical fallback is
either 0.0 or 1.0. -/
theorem C10_form_encoder_totality :
    (∀ form : List (String × String),
      (build_feature_vector_from_form form).length = FEATURES.length) ∧
    (∀ raw : String, pyFloat raw = none →
      formValue (some raw) = .fin (Frac.ofInt 0) ∨
      formValue (some raw) = .fin (Frac.ofInt 1)) := by
  constructor
  · intro form
    simp [build_feature_vector_from_form]
  · intro raw h
    by_cases hne : raw = ""
    · subst hne
      left
      rfl
    · rw [formValue_fallback hne h]
      by_cases hc : pyLower (pyStrip raw) = "male" ∨ pyLower (pyStrip raw) = "m" ∨
          pyLower (pyStrip raw) = "1" ∨ pyLower (pyStrip raw) = "yes" ∨
          pyLower (pyStrip raw) = "y" ∨ pyLower (pyStrip raw) = "true"
      · right
        rw [if_pos hc]
      · left
        rw [if_neg hc]

/-- C10, witness: the non-numeric string "positive" is mapped by the
fallback to 0.0 or 1.0. -/
theorem C10_witness :
    formValue (some "positive") = .fin (Frac.ofInt 0) ∨
    formValue (some "positive") = .fin (Frac.ofInt 1) :=
  C10_form_encoder_totality.2 "positive" (by decide)

end CovidApp
